import Mathlib

/-!
Shallow embedding of the db-watch-events change-relay pipeline.

The definitions mirror, function by function, the TypeScript source of the
repository: the PostgreSQL adapter (`src/adapter/postgresql/adapter.ts`),
the notification listener (`notification-listener.ts`) and the core
notifier/orchestrator (`core/notifier.ts`).  JavaScript run-time behaviour
that the source relies on (truthiness, `||` defaulting, optional chaining,
`Promise.all` rejection, try/catch) is modelled explicitly.
-/

deriving instance DecidableEq for Except

namespace DBWatch

/-! ## A model of parsed JSON values

`JSON.parse` yields one of these; `undefined` models JavaScript `undefined`,
which arises from a missing-property access (it is never a parse result
itself, but flows through the payload handler's property lookups). -/

inductive Json where
  | undefined : Json
  | null : Json
  | bool : Bool → Json
  | num : Int → Json
  | str : String → Json
  | arr : List Json → Json
  | obj : List (String × Json) → Json
  deriving Repr

/-- Property access `v.k` on a value already known to be non-null:
objects yield the stored field or `undefined`; any other value
(number, string, array, …) yields `undefined`. -/
def Json.get : Json → String → Json
  | .obj fields, k =>
      match fields.find? (fun p => p.1 == k) with
      | some p => p.2
      | none => .undefined
  | _, _ => .undefined

/-- Optional chaining `v?.k`: `undefined`/`null` short-circuit to
`undefined`; otherwise an ordinary property access. -/
def Json.getOpt (j : Json) (k : String) : Json :=
  match j with
  | .undefined => .undefined
  | .null => .undefined
  | j => j.get k

/-- Recognize the JavaScript `null` value. -/
def Json.isNull : Json → Bool
  | .null => true
  | _ => false

/-- JavaScript truthiness of a value. -/
def Json.truthy : Json → Bool
  | .undefined => false
  | .null => false
  | .bool b => b
  | .num n => n != 0
  | .str s => s != ""
  | .arr _ => true
  | .obj _ => true

/-- Numeric coercion, as applied by `data.timestamp * 1000`:
`none` stands for `NaN`.  Coercion of arrays and objects (which would go
through `toString`) is conservatively modelled as `NaN`; no verified
property depends on that branch. -/
def Json.toNumber : Json → Option Int
  | .undefined => none
  | .null => some 0
  | .bool b => some (if b then 1 else 0)
  | .num n => some n
  | .str s => if s.trim = "" then some 0 else s.trim.toInt?
  | .arr _ => none
  | .obj _ => none

/-! ## PostgreSQL adapter: payload handling

Mirrors `handleNotification` and `mapOperationType` of
`src/adapter/postgresql/adapter.ts`. -/

/-- Canonical operation enum (`OperationType` in `types.ts`). -/
inductive OperationType where
  | insert | update | delete | replace | drop | truncate | unknown
  deriving Repr, DecidableEq

/-- JavaScript `.toLowerCase()` on a string. -/
def jsToLowerCase (s : String) : String :=
  String.mk (s.data.map Char.toLower)

/-- `mapOperationType`: switch on `pgOperation.toLowerCase()`; every
keyword other than insert/update/delete/truncate falls to `unknown`. -/
def mapOperationType (pgOperation : String) : OperationType :=
  match jsToLowerCase pgOperation with
  | "insert" => OperationType.insert
  | "update" => OperationType.update
  | "delete" => OperationType.delete
  | "truncate" => OperationType.truncate
  | _ => OperationType.unknown

/-- Exceptions that can be raised while the payload handler builds the
change event (all of them are caught by its surrounding try/catch). -/
inductive JsError where
  | parseError   -- JSON.parse threw
  | typeError    -- property access on null, or .toLowerCase() on a non-string
  | rangeError   -- new Date(NaN).toISOString() threw
  deriving Repr, DecidableEq

/-- Ambient inputs of one `handleNotification` call: the fresh uuid that
`uuidv4()` would mint, the current clock reading rendered by
`new Date().toISOString()`, the rendering of an epoch-seconds number by
`new Date(ts * 1000).toISOString()`, and the configured database name. -/
structure AdapterEnv where
  freshId : String
  nowIso : String
  isoOfEpoch : Int → String
  dbName : String

/-- The `timestamp` field expression:
`data.timestamp ? new Date(data.timestamp * 1000).toISOString() : new Date().toISOString()`.
A truthy value that coerces to `NaN` makes `toISOString` throw. -/
def timestampField (env : AdapterEnv) (ts : Json) : Except JsError String :=
  if ts.truthy then
    match ts.toNumber with
    | some n => Except.ok (env.isoOfEpoch n)
    | none => Except.error JsError.rangeError
  else Except.ok env.nowIso

/-- `mapOperationType(data.operation)` as evaluated at run time:
`.toLowerCase()` on anything that is not a string throws a TypeError. -/
def mapOperationField (op : Json) : Except JsError OperationType :=
  match op with
  | Json.str s => Except.ok (mapOperationType s)
  | _ => Except.error JsError.typeError

/-- The embedded `ChangeEvent` as constructed by `handleNotification`
(the fields the adapter actually assigns; `database.type` is the constant
`postgresql`). -/
structure ChangeEvent where
  id : Json
  timestamp : String
  operation : OperationType
  dbName : String
  sourceTable : Json
  sourceSchema : Json
  dataNew : Json
  dataOld : Json
  deriving Repr

/-- `x || null`, as used for the two `data` fields. -/
def orNull (v : Json) : Json :=
  if v.truthy then v else Json.null

/-- The body of `handleNotification` after a successful `JSON.parse`:
builds the change event, propagating any exception of the object-literal
evaluation (field order: id, timestamp, operation, …). -/
def handleNotificationBody (env : AdapterEnv) (data : Json) :
    Except JsError ChangeEvent :=
  -- property access on a parsed `null` throws
  if data.isNull then Except.error JsError.typeError
  else
    let idJ := data.get "id"
    let id := if idJ.truthy then idJ else Json.str env.freshId
    -- object-literal field order: id, timestamp, operation, …
    match timestampField env (data.get "timestamp") with
    | Except.error e => Except.error e
    | Except.ok ts =>
        match mapOperationField (data.get "operation") with
        | Except.error e => Except.error e
        | Except.ok op =>
            Except.ok
              { id := id
                timestamp := ts
                operation := op
                dbName := env.dbName
                sourceTable := data.get "table"
                sourceSchema := data.get "schema"
                dataNew := orNull ((data.get "data").getOpt "new")
                dataOld := orNull ((data.get "data").getOpt "old") }

/-- Observable outcome of one `handleNotification` call. -/
inductive HandleResult where
  | emitted (e : ChangeEvent)
  | dropped          -- the catch arm: logged, nothing rethrown
  deriving Repr

/-- `handleNotification`: the whole body sits in one try/catch whose catch
arm only logs.  The argument is the outcome of `JSON.parse(payload)`
(every raw payload string determines exactly one such outcome). -/
def handleNotification (env : AdapterEnv) (parsed : Except JsError Json) :
    HandleResult :=
  let result : Except JsError ChangeEvent :=
    match parsed with
    | Except.error e => Except.error e
    | Except.ok data => handleNotificationBody env data
  match result with
  | Except.ok ev => HandleResult.emitted ev
  | Except.error _ => HandleResult.dropped

/-! ## PostgreSQL adapter: table resolution (`getTableList`)

The method concatenates SQL text.  The base clause and the include clause
spell their array parameter as a placeholder (`$1`, literal `$2`); the
exclude clause interpolates `${params.length + 1}` WITHOUT a dollar sign,
so the emitted text is a bare integer literal cast to `text[]`.  The query
model keeps that distinction so its evaluation matches PostgreSQL. -/

/-- `TableFilter` of `types.ts` (`incl`/`excl` stand for the optional
`include`/`exclude` arrays; `none` models an absent field). -/
structure TableFilter where
  incl : Option (List String)
  excl : Option (List String)
  schemas : Option (List String)
  deriving Repr, DecidableEq

/-- The textual form of an array argument inside a WHERE clause. -/
inductive ArrayArg where
  | placeholder (n : Nat)   -- the text "$n::text[]"
  | intLiteral (n : Nat)    -- the text "n::text[]" (no dollar sign)
  deriving Repr, DecidableEq

/-- One WHERE conjunct of the table-list query. -/
inductive Clause where
  | schemaAny (a : ArrayArg)    -- AND table_schema = ANY(a)
  | nameAny (a : ArrayArg)      -- AND table_name = ANY(a)
  | nameNotAll (a : ArrayArg)   -- AND table_name != ALL(a)
  deriving Repr, DecidableEq

/-- The query `getTableList` submits: WHERE conjuncts plus bind params. -/
structure TableQuery where
  clauses : List Clause
  params : List (List String)
  deriving Repr, DecidableEq

/-- Builds the query exactly as `getTableList` concatenates it. -/
def getTableListQuery (filter : TableFilter) : TableQuery :=
  -- const schemas = filter.schemas || ['public']
  let schemas := filter.schemas.getD ["public"]
  let clauses := [Clause.schemaAny (ArrayArg.placeholder 1)]
  let params : List (List String) := [schemas]
  -- if (filter.include && filter.include.length > 0)
  let step1 : List Clause × List (List String) :=
    match filter.incl with
    | some inc =>
        if inc.length > 0 then
          (clauses ++ [Clause.nameAny (ArrayArg.placeholder 2)], params ++ [inc])
        else (clauses, params)
    | none => (clauses, params)
  -- if (filter.exclude && filter.exclude.length > 0):
  -- the template is `ALL(${params.length + 1}::text[])` — no `$`
  let step2 : List Clause × List (List String) :=
    match filter.excl with
    | some exc =>
        if exc.length > 0 then
          (step1.1 ++ [Clause.nameNotAll (ArrayArg.intLiteral (step1.2.length + 1))],
           step1.2 ++ [exc])
        else step1
    | none => step1
  { clauses := step2.1, params := step2.2 }

/-- Errors PostgreSQL raises when checking the statement. -/
inductive SqlError where
  | cannotCastIntegerToTextArray   -- "N::text[]" where N is an integer literal
  | undefinedParameter             -- "$n" beyond the supplied bind params
  deriving Repr, DecidableEq

/-- Resolve an array argument against the bind parameters, as the
database does while planning the statement. -/
def resolveArrayArg (params : List (List String)) :
    ArrayArg → Except SqlError (List String)
  | ArrayArg.placeholder n =>
      match params.get? (n - 1) with
      | some a => Except.ok a
      | none => Except.error SqlError.undefinedParameter
  | ArrayArg.intLiteral _ => Except.error SqlError.cannotCastIntegerToTextArray

/-- A clause with its array argument resolved to a concrete list. -/
inductive RClause where
  | schemaAny (a : List String)
  | nameAny (a : List String)
  | nameNotAll (a : List String)
  deriving Repr, DecidableEq

def resolveClause (params : List (List String)) :
    Clause → Except SqlError RClause
  | Clause.schemaAny a => do pure (RClause.schemaAny (← resolveArrayArg params a))
  | Clause.nameAny a => do pure (RClause.nameAny (← resolveArrayArg params a))
  | Clause.nameNotAll a => do pure (RClause.nameNotAll (← resolveArrayArg params a))

/-- A catalog row: `(table_schema, table_name)` of a base table. -/
def CatalogRow := String × String
  deriving Repr, DecidableEq

/-- Does a resolved conjunct hold of a catalog row? -/
def rclauseHolds (row : CatalogRow) : RClause → Bool
  | RClause.schemaAny a => a.contains row.1
  | RClause.nameAny a => a.contains row.2
  | RClause.nameNotAll a => !(a.contains row.2)

/-- Resolve every conjunct (the database type-checks the whole statement,
so one malformed argument fails the query as a unit). -/
def resolveClauses (params : List (List String)) :
    List Clause → Except SqlError (List RClause)
  | [] => Except.ok []
  | c :: rest =>
      match resolveClause params c with
      | Except.error e => Except.error e
      | Except.ok rc =>
          match resolveClauses params rest with
          | Except.error e => Except.error e
          | Except.ok rcs => Except.ok (rc :: rcs)

/-- Run a table query against the catalog of base tables: the statement
is type-checked first, then rows are filtered by the conjuncts. -/
def runTableQuery (catalog : List CatalogRow) (q : TableQuery) :
    Except SqlError (List CatalogRow) :=
  match resolveClauses q.params q.clauses with
  | Except.error e => Except.error e
  | Except.ok rcs =>
      Except.ok (catalog.filter (fun row => rcs.all (rclauseHolds row)))

/-- `getTableList` observed through the database: the rows its query
returns (or the SQL error the query raises). -/
def getTableList (catalog : List CatalogRow) (filter : TableFilter) :
    Except SqlError (List CatalogRow) :=
  runTableQuery catalog (getTableListQuery filter)

/-- The table set the specification describes: schema-restricted catalog,
intersected with `include` when present and non-empty, minus `exclude`
when present and non-empty. -/
def specResolvedTables (catalog : List CatalogRow) (filter : TableFilter) :
    List CatalogRow :=
  let schemas := filter.schemas.getD ["public"]
  catalog.filter (fun row =>
    schemas.contains row.1
    && (match filter.incl with
        | some inc => if inc.length > 0 then inc.contains row.2 else true
        | none => true)
    && (match filter.excl with
        | some exc => if exc.length > 0 then !(exc.contains row.2) else true
        | none => true))

/-! ## PostgreSQL adapter: setup of change notifications

State-level model of `setupChangeNotifications`.  The database work is
transactional (rolled back as a unit on error); the in-memory pushes into
`this.triggers` happen inside the loop and are not undone by the catch
arm. -/

/-- A `TriggerRecord` as pushed by the setup loop. -/
structure TriggerRecord where
  name : String
  table : String
  schema : String
  deriving Repr, DecidableEq

/-- In-memory adapter state touched by setup/teardown. -/
structure AdapterState where
  initialized : Bool
  triggers : List TriggerRecord
  deriving Repr, DecidableEq

/-- Database-side state: the set of installed trigger names. -/
structure DbState where
  dbTriggers : List String
  deriving Repr, DecidableEq

/-- Which step of the setup transaction fails (fault injection). -/
inductive SetupFault where
  | noFault
  | functionCreateFails
  | tableListFails
  | triggerCreateFails (i : Nat)   -- creating the trigger of the i-th table throws
  | commitFails
  deriving Repr, DecidableEq

/-- The trigger name `db_change_notify_${schema}_${name}`. -/
def triggerNameFor (schema name : String) : String :=
  "db_change_notify_" ++ schema ++ "_" ++ name

def triggerRecordFor (t : CatalogRow) : TriggerRecord :=
  { name := triggerNameFor t.1 t.2, table := t.2, schema := t.1 }

/-- `setupChangeNotifications`, as a transition on adapter and database
state.  `tables` is the (already resolved) table list the loop walks.
Returns the call's outcome together with the successor states.  On any
fault the transaction is rolled back (database unchanged) and the wrapped
error is rethrown; the records pushed before the fault stay in
`triggers`, because the catch arm does not restore the array. -/
def setupChangeNotifications (fault : SetupFault) (tables : List CatalogRow)
    (s : AdapterState) (db : DbState) :
    Except Unit Unit × AdapterState × DbState :=
  if s.initialized then
    -- warn and return
    (Except.ok (), s, db)
  else
    match fault with
    | SetupFault.functionCreateFails => (Except.error (), s, db)
    | SetupFault.tableListFails => (Except.error (), s, db)
    | SetupFault.triggerCreateFails i =>
        if i < tables.length then
          let done := tables.take i
          -- ROLLBACK restores the database; the pushes persist
          (Except.error (),
           { s with triggers := s.triggers ++ done.map triggerRecordFor },
           db)
        else
          -- no i-th table: the loop completes and the call succeeds
          (Except.ok (),
           { initialized := true,
             triggers := s.triggers ++ tables.map triggerRecordFor },
           { dbTriggers := db.dbTriggers ++ tables.map (fun t => triggerNameFor t.1 t.2) })
    | SetupFault.commitFails =>
        (Except.error (),
         { s with triggers := s.triggers ++ tables.map triggerRecordFor },
         db)
    | SetupFault.noFault =>
        (Except.ok (),
         { initialized := true,
           triggers := s.triggers ++ tables.map triggerRecordFor },
         { dbTriggers := db.dbTriggers ++ tables.map (fun t => triggerNameFor t.1 t.2) })

/-- `teardownChangeNotifications`: no-op when not initialized; otherwise
drops exactly the recorded triggers in one transaction, clears the
records and the flag.  `dropFails` injects a failing DROP. -/
def teardownChangeNotifications (dropFails : Bool)
    (s : AdapterState) (db : DbState) :
    Except Unit Unit × AdapterState × DbState :=
  if !s.initialized then
    (Except.ok (), s, db)
  else if dropFails then
    -- ROLLBACK: nothing dropped, records kept, still initialized
    (Except.error (), s, db)
  else
    (Except.ok (),
     { initialized := false, triggers := [] },
     { dbTriggers := db.dbTriggers.filter
         (fun n => !((s.triggers.map TriggerRecord.name).contains n)) })

/-! ## Notification listener (`notification-listener.ts`)

State machine of the closure created by `createNotificationListener`.
Timers are given identity: `live` is the list of scheduled, not yet fired
and not yet cancelled retry timers (id, delay); `handle` is the stored
`reconnectTimeout` variable.  At step granularity the `client` variable
always mirrors `connected`, so it is not tracked separately. -/

structure ListenerState where
  connected : Bool
  attempts : Nat              -- connectionAttempts
  handle : Option Nat         -- reconnectTimeout
  live : List (Nat × Nat)     -- pending timers (id, delay in ms)
  nextId : Nat                -- fresh timer ids
  deriving Repr, DecidableEq

def initialListener : ListenerState :=
  { connected := false, attempts := 0, handle := none, live := [], nextId := 0 }

/-- `clearTimeout(h)`: the timer no longer fires. -/
def clearTimeoutL (h : Nat) (s : ListenerState) : ListenerState :=
  { s with live := s.live.filter (fun t => t.1 ≠ h) }

/-- `setTimeout(…, delay)`: schedules a fresh timer and returns its id. -/
def setTimeoutL (delay : Nat) (s : ListenerState) : ListenerState × Nat :=
  ({ s with live := s.live ++ [(s.nextId, delay)], nextId := s.nextId + 1 },
   s.nextId)

/-- The backoff formula `Math.min(1000 * Math.pow(2, attempts - 1), 30000)`
(attempts ≥ 1 whenever it is evaluated). -/
def backoffDelay (attempts : Nat) : Nat :=
  min (1000 * 2 ^ (attempts - 1)) 30000

/-- `handleReconnect(delay)`: clears any previously scheduled retry,
schedules exactly one new one and stores its handle. -/
def handleReconnect (delay : Nat) (s : ListenerState) : ListenerState :=
  let s := match s.handle with
    | some h => clearTimeoutL h s
    | none => s
  let p := setTimeoutL delay s
  { p.1 with handle := some p.2 }

/-- One `connect()` call with outcome `ok` (the connection/LISTEN either
succeeds or throws).  Already-connected calls return immediately.  A
failure increments the attempt counter, schedules a retry with the
backoff delay and rethrows; a success resets the counter to zero. -/
def connectStep (ok : Bool) (s : ListenerState) : ListenerState :=
  if s.connected then s
  else
    let s := { s with attempts := s.attempts + 1 }
    if ok then { s with connected := true, attempts := 0 }
    else handleReconnect (backoffDelay s.attempts) s

/-- `handleDisconnect()`: reacts to a transport error while listening;
no-op when already disconnected. -/
def handleDisconnectStep (s : ListenerState) : ListenerState :=
  if !s.connected then s
  else
    let s := { s with connected := false, attempts := s.attempts + 1 }
    handleReconnect (backoffDelay s.attempts) s

/-- `disconnect()`: cancels any pending retry, then closes the connection
if open (both the clean and the forced path leave `connected = false`). -/
def disconnectStep (s : ListenerState) : ListenerState :=
  let s := match s.handle with
    | some h => { (clearTimeoutL h s) with handle := none }
    | none => s
  { s with connected := false }

/-- A scheduled retry timer `h` fires with the reconnection attempt
outcome `ok`: the callback nulls the stored handle and, when not
connected, re-runs `connect()` (whose rejection is swallowed). -/
def timerFireStep (h : Nat) (ok : Bool) (s : ListenerState) : ListenerState :=
  if s.live.any (fun t => t.1 == h) then
    let s := { s with live := s.live.filter (fun t => t.1 ≠ h), handle := none }
    if s.connected then s else connectStep ok s
  else s

/-- External events driving one listener instance. -/
inductive LEvent where
  | connectCall (ok : Bool)
  | transportError
  | disconnectCall
  | timerFire (h : Nat) (ok : Bool)
  deriving Repr, DecidableEq

def lstep (s : ListenerState) : LEvent → ListenerState
  | LEvent.connectCall ok => connectStep ok s
  | LEvent.transportError => handleDisconnectStep s
  | LEvent.disconnectCall => disconnectStep s
  | LEvent.timerFire h ok => timerFireStep h ok s

def lrun (s : ListenerState) (es : List LEvent) : ListenerState :=
  es.foldl lstep s

/-- The delay of the currently scheduled retry, if any. -/
def pendingRetryDelay (s : ListenerState) : Option Nat :=
  s.handle.bind (fun h => (s.live.find? (fun t => t.1 == h)).map (fun t => t.2))

/-- Does this event take effect as one failed connection attempt in state
`s` (a failing `connect()` call, a transport error while listening, or a
scheduled retry that fires and fails)? -/
def isFailureEvent (s : ListenerState) : LEvent → Bool
  | LEvent.connectCall ok => !ok && !s.connected
  | LEvent.transportError => s.connected
  | LEvent.timerFire h ok => !ok && !s.connected && s.live.any (fun t => t.1 == h)
  | LEvent.disconnectCall => false

/-- `es` is a run of consecutive connection failures from `s`. -/
def failureRun : ListenerState → List LEvent → Bool
  | _, [] => true
  | s, e :: es => isFailureEvent s e && failureRun (lstep s e) es

/-! ## Orchestrator (`ChangeNotifier`, core notifier)

Generic in the event type `α`; `tableOf` reads `event.source.table`. -/

/-- The counters of `NotifierStats` consulted by the verified
properties. -/
structure NotifierStats where
  eventsProcessed : Nat
  deliveryAttempts : Nat
  deliverySuccesses : Nat
  deliveryFailures : Nat
  deriving Repr, DecidableEq

def initialStats : NotifierStats :=
  { eventsProcessed := 0, deliveryAttempts := 0,
    deliverySuccesses := 0, deliveryFailures := 0 }

/-- `updateEventStats`: runs synchronously at the start of
`processEvent`, before transformation and delivery. -/
def updateEventStats (stats : NotifierStats) : NotifierStats :=
  { stats with eventsProcessed := stats.eventsProcessed + 1 }

/-- `await Promise.all(mechanisms.map(d => d.deliver(x)))`: resolves iff
every sink resolves.  One `Bool` per configured sink. -/
def promiseAllOk (outcomes : List Bool) : Bool :=
  outcomes.all (fun b => b)

/-- The shared try/catch of `deliverEvent` and `deliverBatch`: exactly one
attempt per call; one success if every sink resolved, otherwise one
failure (the rejection is caught, not rethrown). -/
def recordDelivery (outcomes : List Bool) (stats : NotifierStats) :
    NotifierStats :=
  if promiseAllOk outcomes then
    { stats with deliveryAttempts := stats.deliveryAttempts + 1,
                 deliverySuccesses := stats.deliverySuccesses + 1 }
  else
    { stats with deliveryAttempts := stats.deliveryAttempts + 1,
                 deliveryFailures := stats.deliveryFailures + 1 }

/-- One fan-out delivery call as observed at the sinks. -/
inductive DeliveryCall (α : Type) where
  | single (e : α)
  | batch (es : List α)
  deriving Repr, DecidableEq

/-- Orchestrator state touched by event processing. -/
structure OrchState (α : Type) where
  stats : NotifierStats
  eventBuffer : List α
  batchTimeout : Option Nat        -- armed batch timer and its window
  calls : List (DeliveryCall α)    -- fan-out delivery calls, in order
  deriving Repr, DecidableEq

def initialOrch {α : Type} : OrchState α :=
  { stats := initialStats, eventBuffer := [], batchTimeout := none, calls := [] }

/-- A transformation's table pattern: a plain string (compiled with
`new RegExp(...)`) or a precompiled regular expression.  Either way the
table name is tested against the same pattern source. -/
inductive TablePattern where
  | strPat (source : String)
  | regExpPat (source : String)
  deriving Repr, DecidableEq

def TablePattern.source : TablePattern → String
  | TablePattern.strPat s => s
  | TablePattern.regExpPat s => s

/-- One `{tablePattern, transform}` entry. -/
structure Transformation (α : Type) where
  tablePattern : TablePattern
  transform : α → Option α

/-- The configuration fields `processEvent` and its helpers read. -/
structure NotifierConfig (α : Type) where
  batchingEnabled : Bool
  batchSize : Option Nat                       -- absent field modelled as none
  batchTimeWindowMs : Option Nat
  transformations : Option (List (Transformation α))

/-- `this.config.batchSize || 100` (an absent or zero size falls back). -/
def effBatchSize {α : Type} (cfg : NotifierConfig α) : Nat :=
  match cfg.batchSize with
  | some n => if n = 0 then 100 else n
  | none => 100

/-- `this.config.batchTimeWindowMs || 1000`. -/
def effBatchWindow {α : Type} (cfg : NotifierConfig α) : Nat :=
  match cfg.batchTimeWindowMs with
  | some n => if n = 0 then 1000 else n
  | none => 1000

/-- The loop of `applyTransformations`: `table` is the ORIGINAL event's
table name (patterns are tested against `event.source.table`, not against
the current intermediate value); `regexTest pat t` abstracts
`new RegExp(pat).test(t)`. -/
def applyLoop {α : Type} (regexTest : String → String → Bool) (table : String) :
    List (Transformation α) → α → Option α
  | [], cur => some cur
  | t :: rest, cur =>
      if regexTest t.tablePattern.source table then
        match t.transform cur with
        | none => none                      -- transform returned null: drop
        | some r => applyLoop regexTest table rest r
      else applyLoop regexTest table rest cur

/-- `applyTransformations`: early return when no transformations are
configured, otherwise the ordered loop over a copy of the event. -/
def applyTransformations {α : Type} (regexTest : String → String → Bool)
    (cfg : NotifierConfig α) (tableOf : α → String) (event : α) : Option α :=
  match cfg.transformations with
  | none => some event
  | some ts =>
      if ts.length = 0 then some event
      else applyLoop regexTest (tableOf event) ts event

/-- `deliverBatch`: clears the batch timer, returns when the buffer is
empty, otherwise snapshots and empties the buffer and performs one
fan-out call whose outcome feeds the aggregated counters. -/
def deliverBatch {α : Type} (outcomes : List Bool) (s : OrchState α) :
    OrchState α :=
  let s := { s with batchTimeout := none }
  if s.eventBuffer.isEmpty then s
  else
    { s with eventBuffer := [],
             stats := recordDelivery outcomes s.stats,
             calls := s.calls ++ [DeliveryCall.batch s.eventBuffer] }

/-- `deliverEvent`: one fan-out call for a single event. -/
def deliverEvent {α : Type} (outcomes : List Bool) (e : α) (s : OrchState α) :
    OrchState α :=
  { s with stats := recordDelivery outcomes s.stats,
           calls := s.calls ++ [DeliveryCall.single e] }

/-- `bufferEvent`: push, flush at the size threshold, otherwise arm the
window timer when none is armed. -/
def bufferEvent {α : Type} (cfg : NotifierConfig α) (outcomes : List Bool)
    (e : α) (s : OrchState α) : OrchState α :=
  let s := { s with eventBuffer := s.eventBuffer ++ [e] }
  if s.eventBuffer.length ≥ effBatchSize cfg then deliverBatch outcomes s
  else if s.batchTimeout.isNone && s.eventBuffer.length > 0 then
    { s with batchTimeout := some (effBatchWindow cfg) }
  else s

/-- `processEvent`: statistics first, then the transform pipeline; a
dropped event causes no buffering and no delivery call; otherwise the
event is buffered (batching on) or delivered immediately.  `outcomes`
are the per-sink results of whatever fan-out call this step issues. -/
def processEvent {α : Type} (regexTest : String → String → Bool)
    (cfg : NotifierConfig α) (tableOf : α → String) (outcomes : List Bool)
    (e : α) (s : OrchState α) : OrchState α :=
  let s := { s with stats := updateEventStats s.stats }
  match applyTransformations regexTest cfg tableOf e with
  | none => s
  | some te =>
      if cfg.batchingEnabled then bufferEvent cfg outcomes te s
      else deliverEvent outcomes te s

/-! ## Orchestrator: stop and cleanup (`stop`, `cleanup`) -/

/-- The cleanup steps, in the order `cleanup()` executes them. -/
inductive CleanupAction where
  | flushBatch
  | adapterStop
  | adapterTeardown
  | sinkClose (i : Nat)
  | clearBatchTimer
  deriving Repr, DecidableEq

/-- Fault injection for one `stop()` call. -/
structure CleanupFaults where
  stopFails : Bool            -- adapter.stop() rejects
  teardownFails : Bool        -- adapter.teardownChangeNotifications() rejects
  closeFails : List Bool      -- per-sink: delivery.close() rejects
  flushOutcomes : List Bool   -- per-sink outcomes of the final flush call
  deriving Repr, DecidableEq

/-- Orchestrator state visible to `stop()`. -/
structure NotifierFullState (α : Type) where
  orch : OrchState α
  hasAdapter : Bool
  sinkCount : Nat
  isRunning : Bool
  deriving Repr, DecidableEq

/-- A fallible awaited step. -/
def tryStep (fails : Bool) : Except Unit Unit :=
  if fails then Except.error () else Except.ok ()

/-- The single try/catch around `adapter.stop()` and
`adapter.teardownChangeNotifications()`: returns the actions actually
executed and the caught result.  A rejecting `stop()` skips the teardown
because both sit behind one error boundary. -/
def adapterCleanupBlock (f : CleanupFaults) :
    List CleanupAction × Except Unit Unit :=
  match tryStep f.stopFails with
  | Except.error e => ([CleanupAction.adapterStop], Except.error e)
  | Except.ok _ =>
      match tryStep f.teardownFails with
      | Except.error e =>
          ([CleanupAction.adapterStop, CleanupAction.adapterTeardown],
           Except.error e)
      | Except.ok _ =>
          ([CleanupAction.adapterStop, CleanupAction.adapterTeardown],
           Except.ok ())

/-- The sink-close loop: every sink is closed inside its own try/catch,
so every index is attempted regardless of earlier failures. -/
def sinkCloseLoop (closeFails : List Bool) (n : Nat) : List CleanupAction :=
  (List.range n).foldl
    (fun acc i =>
      -- try { await delivery.close() } catch { log }
      let _caught := tryStep (closeFails.getD i false)
      acc ++ [CleanupAction.sinkClose i])
    []

/-- `cleanup()`: flush a non-empty buffer (the flush call resolves even
when delivery fails, because `deliverBatch` catches internally), run the
adapter block behind its catch, close every sink, clear the batch timer.
The third component is the promise `cleanup()` itself settles with. -/
def cleanup {α : Type} (f : CleanupFaults) (s : NotifierFullState α) :
    NotifierFullState α × List CleanupAction × Except Unit Unit :=
  let flushed : OrchState α × List CleanupAction :=
    if s.orch.eventBuffer.length > 0 then
      (deliverBatch f.flushOutcomes s.orch, [CleanupAction.flushBatch])
    else (s.orch, [])
  let adapterPart : List CleanupAction :=
    if s.hasAdapter then
      -- catch { log }: the block's error is swallowed here
      (adapterCleanupBlock f).1
    else []
  let sinkPart := sinkCloseLoop f.closeFails s.sinkCount
  let timerPart : OrchState α × List CleanupAction :=
    match flushed.1.batchTimeout with
    | some _ => ({ flushed.1 with batchTimeout := none },
                 [CleanupAction.clearBatchTimer])
    | none => (flushed.1, [])
  ({ orch := timerPart.1, hasAdapter := false, sinkCount := 0,
     isRunning := s.isRunning },
   flushed.2 ++ adapterPart ++ sinkPart ++ timerPart.2,
   Except.ok ())

/-- `stop()`: warns and returns when not running, otherwise awaits
`cleanup()` and marks the notifier stopped. -/
def stopNotifier {α : Type} (f : CleanupFaults) (s : NotifierFullState α) :
    NotifierFullState α × List CleanupAction × Except Unit Unit :=
  if !s.isRunning then (s, [], Except.ok ())
  else
    let r := cleanup f s
    ({ r.1 with isRunning := false }, r.2.1, r.2.2)

/-! ## Listener invariant and spec-side pipeline definition -/

/-- The retry-timer invariant: the stored handle and the set of live
timers agree — either no retry is scheduled, or exactly one is and the
handle points at it (ids stay below the fresh-id counter). -/
def timerInv (s : ListenerState) : Prop :=
  (s.handle = none ∧ s.live = []) ∨
  (∃ h d, s.handle = some h ∧ s.live = [(h, d)] ∧ h < s.nextId)

/-- The transform pipeline as the specification words it: the entries
whose pattern matches the incoming event's table, applied in declared
order, each receiving the previous step's output, with a `none` result
stopping everything. -/
def pipelineSpec {α : Type} (regexTest : String → String → Bool)
    (ts : List (Transformation α)) (tableOf : α → String) (event : α) :
    Option α :=
  (ts.filter (fun t => regexTest t.tablePattern.source (tableOf event))).foldlM
    (fun ev t => t.transform ev) event

/-- Run of `bufferEvent` over a list of arriving events (the per-call
sink outcomes are those of whatever flush the run triggers). -/
def bufferRun {α : Type} (cfg : NotifierConfig α) (outcomes : List Bool)
    (es : List α) (s : OrchState α) : OrchState α :=
  es.foldl (fun st e => bufferEvent cfg outcomes e st) s

/-- Records pushed into `this.triggers` before a given setup fault hits. -/
def setupPushedRecords (fault : SetupFault) (tables : List CatalogRow) :
    List TriggerRecord :=
  match fault with
  | SetupFault.triggerCreateFails i => (tables.take i).map triggerRecordFor
  | SetupFault.commitFails => tables.map triggerRecordFor
  | _ => []

/-- Does this fault actually make the setup call fail on this table
list? -/
def setupFails (fault : SetupFault) (tables : List CatalogRow) : Bool :=
  match fault with
  | SetupFault.noFault => false
  | SetupFault.triggerCreateFails i => i < tables.length
  | _ => true

/-! ## Concrete inputs used by witnesses and counterexamples -/

def wEnv : AdapterEnv :=
  { freshId := "uuid-1", nowIso := "1970-01-01T00:00:00.000Z",
    isoOfEpoch := fun _ => "1970-01-01T00:00:01.000Z", dbName := "demo_db" }

/-- A parsed payload whose operation keyword is unrecognized. -/
def wPayloadUnknown : Json :=
  Json.obj [("operation", Json.str "frobnicate"), ("table", Json.str "t")]

def wEventUnknown : ChangeEvent :=
  { id := Json.str "uuid-1", timestamp := "1970-01-01T00:00:00.000Z",
    operation := OperationType.unknown, dbName := "demo_db",
    sourceTable := Json.str "t", sourceSchema := Json.undefined,
    dataNew := Json.null, dataOld := Json.null }

/-- A parsed insert payload: `data.new` supplied, no `data.old`. -/
def wPayloadInsert : Json :=
  Json.obj [("operation", Json.str "insert"), ("schema", Json.str "public"),
            ("table", Json.str "accounts"),
            ("data", Json.obj [("new", Json.obj [("a", Json.num 2)])])]

def wEventInsert : ChangeEvent :=
  { id := Json.str "uuid-1", timestamp := "1970-01-01T00:00:00.000Z",
    operation := OperationType.insert, dbName := "demo_db",
    sourceTable := Json.str "accounts", sourceSchema := Json.str "public",
    dataNew := Json.obj [("a", Json.num 2)], dataOld := Json.null }

/-- A small catalog of base tables. -/
def wCatalog : List CatalogRow :=
  [("public", "users"), ("public", "orders"), ("public", "secrets"),
   ("audit", "users")]

/-- A filter whose `exclude` list is present and non-empty. -/
def wFilterExclude : TableFilter :=
  { incl := none, excl := some ["secrets"], schemas := none }

/-- A filter with only an `include` list. -/
def wFilterInclude : TableFilter :=
  { incl := some ["users", "orders"], excl := none, schemas := none }

/-- The two tables a setup call walks in the C2 scenario. -/
def wTables : List CatalogRow := [("public", "a"), ("public", "b")]

def wAdapter0 : AdapterState := { initialized := false, triggers := [] }

def wDb0 : DbState := { dbTriggers := [] }

/-- An orchestrator state with one buffered event. -/
def wOrchBuf : OrchState Nat :=
  { stats := initialStats, eventBuffer := [7], batchTimeout := none,
    calls := [] }

/-- Six consecutive connection failures: one failing `connect()` call and
five failing scheduled retries. -/
def wFailSeq : List LEvent :=
  [LEvent.connectCall false, LEvent.timerFire 0 false,
   LEvent.timerFire 1 false, LEvent.timerFire 2 false,
   LEvent.timerFire 3 false, LEvent.timerFire 4 false]

/-- The empty orchestrator state at the concrete event type. -/
def wOrch0 : OrchState Nat := initialOrch

/-- A batching configuration with size 2 and the default window. -/
def wCfgBatch : NotifierConfig Nat :=
  { batchingEnabled := true, batchSize := some 2,
    batchTimeWindowMs := none, transformations := none }

/-- Pattern test used by the witnesses (matches on literal equality; the
theorems hold for every test function). -/
def wRegexTest : String → String → Bool := fun pat tab => pat == tab

def wTableOf : Nat → String := fun _ => "orders"

/-- One transformation whose pattern matches no `orders` event. -/
def wCfgNoMatch : NotifierConfig Nat :=
  { batchingEnabled := false, batchSize := none, batchTimeWindowMs := none,
    transformations := some
      [{ tablePattern := TablePattern.strPat "users",
         transform := fun n => some (n + 1) }] }

/-- One transformation that drops every `orders` event. -/
def wCfgDrop : NotifierConfig Nat :=
  { batchingEnabled := false, batchSize := none, batchTimeWindowMs := none,
    transformations := some
      [{ tablePattern := TablePattern.strPat "orders",
         transform := fun _ => none }] }

/-- Faults for one stop() call: the adapter's stop() rejects. -/
def wFaultsStop : CleanupFaults :=
  { stopFails := true, teardownFails := false, closeFails := [false],
    flushOutcomes := [] }

/-- Faults for one stop() call: teardown and the sink close reject. -/
def wFaultsTeardown : CleanupFaults :=
  { stopFails := false, teardownFails := true, closeFails := [true],
    flushOutcomes := [] }

/-- A running notifier with an adapter and one sink. -/
def wRunning : NotifierFullState Nat :=
  { orch := initialOrch, hasAdapter := true, sinkCount := 1,
    isRunning := true }

end DBWatch

/-! # Verified properties -/

namespace DBWatch

/-- Helper: a successful payload-handler body fixes the event's operation
and both data fields. -/
theorem handleNotificationBody_ok_fields (env : AdapterEnv) (data : Json)
    (ev : ChangeEvent) (h : handleNotificationBody env data = Except.ok ev) :
    ev.dataNew = orNull ((data.get "data").getOpt "new") ∧
    ev.dataOld = orNull ((data.get "data").getOpt "old") ∧
    ∃ s, data.get "operation" = Json.str s ∧ ev.operation = mapOperationType s := by
  unfold handleNotificationBody at h
  by_cases hnull : data.isNull
  · simp [hnull] at h
  · simp only [hnull, Bool.false_eq_true, if_false] at h
    rcases hts : timestampField env (data.get "timestamp") with e | ts
    · simp [hts] at h
    · rcases hop : mapOperationField (data.get "operation") with e | op
      · simp [hts, hop] at h
      · simp only [hts, hop] at h
        rcases hops : data.get "operation" with _ | _ | _ | _ | s | _ | _ <;>
          simp [mapOperationField, hops] at hop
        injection h with h
        subst h
        exact ⟨rfl, rfl, s, rfl, hop.symm⟩

/-- Helper: the `x || null` fallback never leaves `undefined` behind. -/
theorem orNull_ne_undefined (v : Json) : orNull v ≠ Json.undefined := by
  unfold orNull
  by_cases hv : v.truthy
  · cases v <;> simp_all [Json.truthy]
  · simp [hv]

/-- Helper: an emitted event comes from a successful handler body. -/
theorem handleNotification_emitted (env : AdapterEnv) (data : Json)
    (ev : ChangeEvent)
    (h : handleNotification env (Except.ok data) = HandleResult.emitted ev) :
    handleNotificationBody env data = Except.ok ev := by
  unfold handleNotification at h
  rcases hb : handleNotificationBody env data with e | ev₁
  · simp [hb] at h
  · simp only [hb] at h
    injection h with h
    exact congrArg Except.ok h

/-- C7: the adapter's payload handler never propagates an error for any
raw payload: every parse outcome is either dropped (logged) or yields an
emitted event; a failed parse is dropped; and an operation keyword other
than insert/update/delete/truncate (case-insensitively) maps to
`unknown`, never to an error, so such payloads still emit an event whose
operation is `unknown`. -/
theorem C7_payload_handler_never_propagates :
    (∀ (env : AdapterEnv) (e : JsError),
       handleNotification env (Except.error e) = HandleResult.dropped)
    ∧ (∀ (env : AdapterEnv) (parsed : Except JsError Json),
         handleNotification env parsed = HandleResult.dropped ∨
         ∃ ev, handleNotification env parsed = HandleResult.emitted ev)
    ∧ (∀ s : String, jsToLowerCase s ≠ "insert" → jsToLowerCase s ≠ "update" →
         jsToLowerCase s ≠ "delete" → jsToLowerCase s ≠ "truncate" →
         mapOperationType s = OperationType.unknown)
    ∧ (∀ (env : AdapterEnv) (data : Json) (s : String) (ev : ChangeEvent),
         data.get "operation" = Json.str s →
         handleNotification env (Except.ok data) = HandleResult.emitted ev →
         ev.operation = mapOperationType s) := by
  refine ⟨fun env e => rfl, ?_, ?_, ?_⟩
  · intro env parsed
    rcases parsed with e | data
    · exact Or.inl rfl
    · rcases hb : handleNotificationBody env data with e | ev
      · exact Or.inl (by simp [handleNotification, hb])
      · exact Or.inr ⟨ev, by simp [handleNotification, hb]⟩
  · intro s h₁ h₂ h₃ h₄
    unfold mapOperationType
    split <;> simp_all
  · intro env data s ev hop h
    have hb := handleNotification_emitted env data ev h
    obtain ⟨-, -, s', hs', hmap⟩ :=
      handleNotificationBody_ok_fields env data ev hb
    rw [hop] at hs'
    injection hs' with hs'
    rw [hmap, hs']

/-- C7 witness: a payload with operation keyword "frobnicate" emits an
event whose operation is `unknown`; the keyword is recognized by none of
the four cases. -/
theorem C7_witness :
    mapOperationType "frobnicate" = OperationType.unknown ∧
    handleNotification wEnv (Except.ok wPayloadUnknown)
      = HandleResult.emitted wEventUnknown ∧
    wEventUnknown.operation = mapOperationType "frobnicate" :=
  ⟨C7_payload_handler_never_propagates.2.2.1 "frobnicate"
     (by decide) (by decide) (by decide) (by decide),
   rfl,
   C7_payload_handler_never_propagates.2.2.2 wEnv wPayloadUnknown
     "frobnicate" wEventUnknown rfl rfl⟩

/-- C3: each fan-out delivery call (single event or batch) bumps
`deliveryAttempts` exactly once; `deliverySuccesses` increments iff every
sink resolved; any sink failure is recorded as exactly one
`deliveryFailure` for the call, however many sinks were targeted; and
over a sequence of calls the failure counter equals the number of failed
calls. -/
theorem C3_delivery_counters :
    (∀ (outcomes : List Bool) (st : NotifierStats),
       (recordDelivery outcomes st).deliveryAttempts
         = st.deliveryAttempts + 1 ∧
       ((recordDelivery outcomes st).deliverySuccesses
          = st.deliverySuccesses + 1 ↔ promiseAllOk outcomes = true) ∧
       ((recordDelivery outcomes st).deliveryFailures
          = st.deliveryFailures + 1 ↔ promiseAllOk outcomes = false) ∧
       (promiseAllOk outcomes = true ↔ ∀ b ∈ outcomes, b = true))
    ∧ (∀ (α : Type) (outcomes : List Bool) (e : α) (s : OrchState α),
         (deliverEvent outcomes e s).stats = recordDelivery outcomes s.stats)
    ∧ (∀ (α : Type) (outcomes : List Bool) (s : OrchState α),
         s.eventBuffer ≠ [] →
         (deliverBatch outcomes s).stats = recordDelivery outcomes s.stats)
    ∧ (∀ (callOutcomes : List (List Bool)) (st : NotifierStats),
         (callOutcomes.foldl (fun acc oc => recordDelivery oc acc)
            st).deliveryAttempts
           = st.deliveryAttempts + callOutcomes.length ∧
         (callOutcomes.foldl (fun acc oc => recordDelivery oc acc)
            st).deliverySuccesses
           = st.deliverySuccesses
             + callOutcomes.countP (fun oc => promiseAllOk oc) ∧
         (callOutcomes.foldl (fun acc oc => recordDelivery oc acc)
            st).deliveryFailures
           = st.deliveryFailures
             + callOutcomes.countP (fun oc => !promiseAllOk oc)) := by
  refine ⟨?_, fun α outcomes e s => rfl, ?_, ?_⟩
  · intro outcomes st
    have hall : (promiseAllOk outcomes = true) ↔ ∀ b ∈ outcomes, b = true := by
      simp [promiseAllOk, List.all_eq_true]
    unfold recordDelivery
    by_cases hp : promiseAllOk outcomes = true
    · rw [if_pos hp]
      refine ⟨rfl, by simp [hp], ?_, hall⟩
      rw [hp]
      constructor
      · intro h
        simp at h
      · intro h
        simp at h
    · have hp' : promiseAllOk outcomes = false := by simpa using hp
      rw [if_neg hp]
      refine ⟨rfl, ?_, by simp [hp'], hall⟩
      rw [hp']
      constructor
      · intro h
        simp at h
      · intro h
        simp at h
  · intro α outcomes s h
    unfold deliverBatch
    simp [List.isEmpty_iff, h]
  · intro callOutcomes
    induction callOutcomes with
    | nil => intro st; simp
    | cons oc rest ih =>
        intro st
        have h := ih (recordDelivery oc st)
        unfold recordDelivery at h
        by_cases hp : promiseAllOk oc <;>
          simp_all [List.countP_cons, recordDelivery] <;> omega

/-- C3 witness: a batch flush over one buffered event with a two-sink
partial failure records exactly one failed attempt; three calls of which
two fail yield a failure counter of two. -/
theorem C3_witness :
    wOrchBuf.eventBuffer ≠ [] ∧
    (deliverBatch [true, false] wOrchBuf).stats
      = recordDelivery [true, false] wOrchBuf.stats ∧
    ([[true, false], [true], [false, false]].foldl
       (fun acc oc => recordDelivery oc acc) initialStats).deliveryFailures
      = initialStats.deliveryFailures
        + [[true, false], [true], [false, false]].countP
            (fun oc => !promiseAllOk oc) :=
  ⟨by decide,
   C3_delivery_counters.2.2.1 Nat [true, false] wOrchBuf (by decide),
   (C3_delivery_counters.2.2.2 [[true, false], [true], [false, false]]
      initialStats).2.2⟩

/-- Helper: under the timer invariant, `handleReconnect` replaces
whatever retry was pending with exactly one fresh timer. -/
theorem handleReconnect_inv (d : Nat) (s : ListenerState)
    (hinv : timerInv s) :
    handleReconnect d s
      = { s with handle := some s.nextId, live := [(s.nextId, d)],
                 nextId := s.nextId + 1 } := by
  rcases hinv with ⟨hh, hl⟩ | ⟨h, dd, hh, hl, -⟩ <;>
    simp [handleReconnect, clearTimeoutL, setTimeoutL, hh, hl]

/-- Helper: a connection failure (failed connect, transport error, or a
firing retry that fails) increments the attempt counter and leaves
exactly one freshly scheduled retry with the backoff delay. -/
theorem listener_failure_step (s : ListenerState) (e : LEvent)
    (hinv : timerInv s) (hf : isFailureEvent s e = true) :
    lstep s e
      = { connected := false, attempts := s.attempts + 1,
          handle := some s.nextId,
          live := [(s.nextId, backoffDelay (s.attempts + 1))],
          nextId := s.nextId + 1 } := by
  obtain ⟨c, a, hdl, lv, ni⟩ := s
  simp only [timerInv] at hinv
  cases e with
  | connectCall ok =>
      simp only [isFailureEvent, Bool.and_eq_true, Bool.not_eq_true'] at hf
      obtain ⟨hok, hc⟩ := hf
      subst hok
      subst hc
      rcases hinv with ⟨hh, hl⟩ | ⟨h₀, dd, hh, hl, hn⟩ <;> subst hh <;> subst hl <;>
        simp [lstep, connectStep, handleReconnect, clearTimeoutL, setTimeoutL]
  | transportError =>
      simp only [isFailureEvent] at hf
      subst hf
      rcases hinv with ⟨hh, hl⟩ | ⟨h₀, dd, hh, hl, hn⟩ <;> subst hh <;> subst hl <;>
        simp [lstep, handleDisconnectStep, handleReconnect, clearTimeoutL,
              setTimeoutL]
  | timerFire h ok =>
      simp only [isFailureEvent, Bool.and_eq_true, Bool.not_eq_true'] at hf
      obtain ⟨⟨hok, hc⟩, hlive⟩ := hf
      subst hok
      subst hc
      rcases hinv with ⟨hh, hl⟩ | ⟨h₀, dd, hh, hl, hn⟩ <;> subst hh <;> subst hl
      · simp at hlive
      · have hh₀ : h₀ = h := by simpa using hlive
        subst hh₀
        simp [lstep, timerFireStep, connectStep, handleReconnect,
              clearTimeoutL, setTimeoutL] at hlive ⊢
  | disconnectCall =>
      simp [isFailureEvent] at hf

/-- Helper: every event preserves the timer invariant. -/
theorem lstep_timerInv (s : ListenerState) (e : LEvent)
    (hinv : timerInv s) : timerInv (lstep s e) := by
  by_cases hf : isFailureEvent s e = true
  · rw [listener_failure_step s e hinv hf]
    exact Or.inr ⟨s.nextId, backoffDelay (s.attempts + 1), rfl, rfl,
                  Nat.lt_succ_self _⟩
  · obtain ⟨c, a, hdl, lv, ni⟩ := s
    simp only [timerInv] at hinv ⊢
    cases e with
    | connectCall ok =>
        cases c
        · cases ok
          · exact absurd (by simp [isFailureEvent]) hf
          · simpa [lstep, connectStep] using hinv
        · simpa [lstep, connectStep] using hinv
    | transportError =>
        cases c
        · simpa [lstep, handleDisconnectStep] using hinv
        · exact absurd (by simp [isFailureEvent]) hf
    | disconnectCall =>
        rcases hinv with ⟨hh, hl⟩ | ⟨h₀, dd, hh, hl, hn⟩ <;> subst hh <;> subst hl
        · exact Or.inl (by simp [lstep, disconnectStep])
        · exact Or.inl (by simp [lstep, disconnectStep, clearTimeoutL])
    | timerFire h ok =>
        by_cases hlive : (lv.any (fun t => t.1 == h)) = true
        · rcases hinv with ⟨hh, hl⟩ | ⟨h₀, dd, hh, hl, hn⟩ <;> subst hh <;> subst hl
          · simp at hlive
          · have hh₀ : h₀ = h := by simpa using hlive
            subst hh₀
            cases c
            · cases ok
              · exact absurd (by simp [isFailureEvent, hlive]) hf
              · exact Or.inl
                  (by simp [lstep, timerFireStep, hlive, connectStep,
                            clearTimeoutL])
            · exact Or.inl (by simp [lstep, timerFireStep, hlive])
        · simp only [lstep, timerFireStep]
          rw [if_neg (by simpa using hlive)]
          exact hinv

/-- Helper: the invariant holds along every run from the initial state. -/
theorem lrun_timerInv (es : List LEvent) :
    ∀ s : ListenerState, timerInv s → timerInv (lrun s es) := by
  induction es with
  | nil => intro s hinv; exact hinv
  | cons e rest ih =>
      intro s hinv
      exact ih (lstep s e) (lstep_timerInv s e hinv)

/-- Helper: the scheduled-retry delay of a freshly scheduled state. -/
theorem pendingRetryDelay_of_failure (s : ListenerState) (e : LEvent)
    (hinv : timerInv s) (hf : isFailureEvent s e = true) :
    pendingRetryDelay (lstep s e) = some (backoffDelay (s.attempts + 1)) := by
  rw [listener_failure_step s e hinv hf]
  simp [pendingRetryDelay]

/-- Helper: a run of consecutive failures counts attempts one-for-one and
leaves the backoff of the failure count pending. -/
theorem failureRun_result (es : List LEvent) :
    ∀ s : ListenerState, timerInv s → failureRun s es = true →
      (lrun s es).attempts = s.attempts + es.length ∧
      timerInv (lrun s es) ∧
      (es ≠ [] →
        pendingRetryDelay (lrun s es)
          = some (backoffDelay (s.attempts + es.length)) ∧
        (lrun s es).connected = false) := by
  induction es with
  | nil =>
      intro s hinv _
      exact ⟨by simp [lrun], hinv, by simp⟩
  | cons e rest ih =>
      intro s hinv hrun
      simp only [failureRun, Bool.and_eq_true] at hrun
      obtain ⟨hf, hrest⟩ := hrun
      have hstep := listener_failure_step s e hinv hf
      have hinv' : timerInv (lstep s e) := lstep_timerInv s e hinv
      have hatt : (lstep s e).attempts = s.attempts + 1 := by rw [hstep]
      obtain ⟨ha, hi, hp⟩ := ih (lstep s e) hinv' hrest
      have hrw : lrun s (e :: rest) = lrun (lstep s e) rest := by
        simp [lrun]
      refine ⟨by rw [hrw, ha, hatt]; simp [List.length_cons]; omega,
              by rw [hrw]; exact hi, ?_⟩
      intro _
      rcases Decidable.em (rest = []) with hre | hre
      · subst hre
        rw [hrw]
        have h₁ := pendingRetryDelay_of_failure s e hinv hf
        have h₂ : (lstep s e).connected = false := by rw [hstep]
        exact ⟨by simpa [lrun] using h₁, by simpa [lrun] using h₂⟩
      · obtain ⟨hd, hcon⟩ := hp hre
        rw [hrw]
        refine ⟨?_, hcon⟩
        rw [hd, hatt]
        have : s.attempts + 1 + rest.length = s.attempts + (rest.length + 1) := by
          omega
        rw [this]
        simp

/-- C4: after K consecutive connection failures with no intervening
success, the scheduled retry delay is exactly
`min(1000 * 2^(K-1), 30000)` milliseconds; the backoff never exceeds the
30-second ceiling; and a successful connect resets the attempt counter to
zero. -/
theorem C4_backoff_formula :
    (∀ (s : ListenerState) (es : List LEvent),
       timerInv s → s.attempts = 0 → failureRun s es = true → es ≠ [] →
       (lrun s es).attempts = es.length ∧
       pendingRetryDelay (lrun s es)
         = some (min (1000 * 2 ^ (es.length - 1)) 30000))
    ∧ (∀ k : Nat, backoffDelay k ≤ 30000)
    ∧ (∀ s : ListenerState, s.connected = false →
         (connectStep true s).attempts = 0) := by
  refine ⟨?_, fun k => Nat.min_le_right _ _, ?_⟩
  · intro s es hinv h0 hrun hne
    obtain ⟨ha, -, hp⟩ := failureRun_result es s hinv hrun
    obtain ⟨hd, -⟩ := hp hne
    rw [h0] at ha hd
    refine ⟨by simpa using ha, ?_⟩
    rw [hd]
    simp [backoffDelay]
  · intro s h
    simp [connectStep, h]

/-- C4 witness: six consecutive failures from a fresh listener reach the
ceiling — the sixth scheduled delay is `min(1000 * 2^5, 30000) = 30000`. -/
theorem C4_witness :
    timerInv initialListener ∧ initialListener.attempts = 0 ∧
    failureRun initialListener wFailSeq = true ∧
    (lrun initialListener wFailSeq).attempts = wFailSeq.length ∧
    pendingRetryDelay (lrun initialListener wFailSeq)
      = some (min (1000 * 2 ^ (wFailSeq.length - 1)) 30000) ∧
    min (1000 * 2 ^ (wFailSeq.length - 1)) 30000 = 30000 := by
  have hinv : timerInv initialListener := Or.inl ⟨rfl, rfl⟩
  have h := C4_backoff_formula.1 initialListener wFailSeq hinv rfl
    (by decide) (by decide)
  exact ⟨hinv, rfl, by decide, h.1, h.2, by decide⟩

/-- C8: across any sequence of connect attempts, transport errors,
disconnects and timer firings, at most one scheduled retry timer is
pending; each effective failure leaves exactly one freshly scheduled
successor; `disconnect()` cancels any pending retry; and `disconnect()`
is idempotent. -/
theorem C8_single_retry_timer :
    (∀ es : List LEvent, (lrun initialListener es).live.length ≤ 1)
    ∧ (∀ (s : ListenerState) (e : LEvent), timerInv s →
         isFailureEvent s e = true →
         (lstep s e).live
           = [(s.nextId, backoffDelay (s.attempts + 1))])
    ∧ (∀ s : ListenerState, timerInv s →
         (disconnectStep s).live = [] ∧ (disconnectStep s).handle = none)
    ∧ (∀ s : ListenerState,
         disconnectStep (disconnectStep s) = disconnectStep s) := by
  refine ⟨?_, ?_, ?_, ?_⟩
  · intro es
    have h := lrun_timerInv es initialListener (Or.inl ⟨rfl, rfl⟩)
    rcases h with ⟨-, hl⟩ | ⟨h₀, dd, -, hl, -⟩ <;> simp [hl]
  · intro s e hinv hf
    rw [listener_failure_step s e hinv hf]
  · intro s hinv
    rcases hinv with ⟨hh, hl⟩ | ⟨h₀, dd, hh, hl, -⟩ <;>
      simp [disconnectStep, clearTimeoutL, hh, hl]
  · intro s
    rcases hh : s.handle with _ | h₀ <;>
      simp [disconnectStep, clearTimeoutL, hh]

/-- C8 witness: one failed connect schedules exactly one retry; a
disconnect right after cancels it, and disconnecting twice equals
disconnecting once. -/
theorem C8_witness :
    (lrun initialListener [LEvent.connectCall false]).live.length ≤ 1 ∧
    (lstep initialListener (LEvent.connectCall false)).live
      = [(initialListener.nextId,
          backoffDelay (initialListener.attempts + 1))] ∧
    (disconnectStep (lstep initialListener (LEvent.connectCall false))).live
      = [] ∧
    disconnectStep (disconnectStep initialListener)
      = disconnectStep initialListener :=
  ⟨C8_single_retry_timer.1 [LEvent.connectCall false],
   C8_single_retry_timer.2.1 initialListener (LEvent.connectCall false)
     (Or.inl ⟨rfl, rfl⟩) (by decide),
   (C8_single_retry_timer.2.2.1
      (lstep initialListener (LEvent.connectCall false))
      (lstep_timerInv initialListener (LEvent.connectCall false)
        (Or.inl ⟨rfl, rfl⟩))).1,
   C8_single_retry_timer.2.2.2 initialListener⟩

/-- Helper: the effective batch size is always positive (`|| 100` turns
both an absent and a zero configured size into 100). -/
theorem effBatchSize_pos {α : Type} (cfg : NotifierConfig α) :
    0 < effBatchSize cfg := by
  unfold effBatchSize
  rcases hb : cfg.batchSize with _ | n
  · simp
  · by_cases h : n = 0 <;> simp [h]
    exact Nat.pos_of_ne_zero h

/-- Helper: one under-threshold arrival with the timer already armed only
appends to the buffer. -/
theorem bufferEvent_under (cfg : NotifierConfig α) (outcomes : List Bool)
    (e : α) (s : OrchState α) (w : Nat)
    (hw : s.batchTimeout = some w)
    (hlt : s.eventBuffer.length + 1 < effBatchSize cfg) :
    bufferEvent cfg outcomes e s
      = { s with eventBuffer := s.eventBuffer ++ [e] } := by
  unfold bufferEvent
  rw [if_neg, if_neg]
  · simp [hw]
  · simp only [List.length_append, List.length_singleton]
    omega

/-- Helper: a run of arrivals that stays under the threshold, with the
timer already armed, only accumulates the events in order. -/
theorem bufferRun_fill {α : Type} (cfg : NotifierConfig α)
    (outcomes : List Bool) :
    ∀ (es : List α) (s : OrchState α) (w : Nat),
      s.batchTimeout = some w →
      s.eventBuffer.length + es.length < effBatchSize cfg →
      bufferRun cfg outcomes es s
        = { s with eventBuffer := s.eventBuffer ++ es } := by
  intro es
  induction es with
  | nil =>
      intro s w hw hlt
      simp [bufferRun]
  | cons e rest ih =>
      intro s w hw hlt
      have hstep : bufferRun cfg outcomes (e :: rest) s
          = bufferRun cfg outcomes rest (bufferEvent cfg outcomes e s) := by
        simp [bufferRun]
      rw [hstep,
          bufferEvent_under cfg outcomes e s w hw
            (by simp at hlt ⊢; omega)]
      rw [ih { s with eventBuffer := s.eventBuffer ++ [e] } w (by simp [hw])
            (by simp at hlt ⊢; omega)]
      simp

/-- Helper: starting from an empty buffer with no armed timer, fewer
events than the batch size leave exactly those events buffered, in
arrival order, with one armed window timer and no delivery call. -/
theorem bufferRun_from_empty {α : Type} (cfg : NotifierConfig α)
    (outcomes : List Bool) (es : List α) (s : OrchState α)
    (hb : s.eventBuffer = []) (ht : s.batchTimeout = none)
    (h0 : 0 < es.length) (hlt : es.length < effBatchSize cfg) :
    bufferRun cfg outcomes es s
      = { s with eventBuffer := es,
                 batchTimeout := some (effBatchWindow cfg) } := by
  rcases es with _ | ⟨e, rest⟩
  · simp at h0
  · have hstep : bufferRun cfg outcomes (e :: rest) s
        = bufferRun cfg outcomes rest (bufferEvent cfg outcomes e s) := by
      simp [bufferRun]
    have hS : 1 < effBatchSize cfg := by
      simp at hlt
      omega
    have hbe : bufferEvent cfg outcomes e s
        = { s with eventBuffer := [e],
                   batchTimeout := some (effBatchWindow cfg) } := by
      unfold bufferEvent
      rw [if_neg, if_pos]
      · simp [hb]
      · simp [hb, ht]
      · simp [hb]
        omega
    rw [hstep, hbe]
    rw [bufferRun_fill cfg outcomes rest _ (effBatchWindow cfg) (by simp)
          (by simp at hlt ⊢; omega)]
    simp

/-- C5: with batching enabled, size S and window W: S arrivals from an
empty buffer cause exactly one flush whose single batch holds exactly
those S events in arrival order, leaving the buffer empty and the window
timer cancelled; fewer than S arrivals cause no delivery call — the
first arrival arms a single timer for W and the events stay buffered in
order. -/
theorem C5_batch_flush :
    ∀ (α : Type) (cfg : NotifierConfig α) (outcomes : List Bool)
      (es : List α) (s : OrchState α),
      s.eventBuffer = [] → s.batchTimeout = none →
      (es.length = effBatchSize cfg →
         bufferRun cfg outcomes es s
           = { s with eventBuffer := [],
                      batchTimeout := none,
                      stats := recordDelivery outcomes s.stats,
                      calls := s.calls ++ [DeliveryCall.batch es] })
      ∧ (0 < es.length → es.length < effBatchSize cfg →
           bufferRun cfg outcomes es s
             = { s with eventBuffer := es,
                        batchTimeout := some (effBatchWindow cfg) }) := by
  intro α cfg outcomes es s hb ht
  refine ⟨?_, fun h0 hlt => bufferRun_from_empty cfg outcomes es s hb ht h0 hlt⟩
  intro hlen
  have hS := effBatchSize_pos cfg
  rcases List.eq_nil_or_concat es with rfl | ⟨front, last, rfl⟩
  · have h0 : effBatchSize cfg = 0 := by simpa using hlen.symm
    omega
  · simp only [List.concat_eq_append] at hlen ⊢
    have hsplit : bufferRun cfg outcomes (front ++ [last]) s
        = bufferEvent cfg outcomes last (bufferRun cfg outcomes front s) := by
      simp [bufferRun, List.foldl_append]
    rcases front with _ | ⟨e, rest⟩
    · -- S = 1: the very first arrival flushes
      have h1 : effBatchSize cfg = 1 := by simpa using hlen.symm
      simp only [List.nil_append] at hsplit ⊢
      rw [hsplit]
      unfold bufferRun
      simp only [List.foldl_nil]
      unfold bufferEvent
      rw [if_pos (by simp [hb, h1])]
      unfold deliverBatch
      rw [if_neg (by simp [hb])]
      simp [hb]
    · -- S ≥ 2: the first S-1 arrivals buffer, the S-th flushes
      have hfront := bufferRun_from_empty cfg outcomes (e :: rest) s hb ht
        (by simp)
        (by simp only [List.length_append, List.length_cons,
              List.length_singleton] at hlen ⊢; omega)
      rw [hsplit, hfront]
      unfold bufferEvent
      rw [if_pos (by
        simp only [List.length_append, List.length_cons,
          List.length_singleton] at hlen ⊢
        omega)]
      simp [deliverBatch]

/-- C5 witness: with batch size 2, two events flush as one batch in
arrival order with the timer cancelled; a single event stays buffered
with the default 1000 ms window armed and no delivery call. -/
theorem C5_witness :
    bufferRun wCfgBatch [true] [4, 9] wOrch0
      = { wOrch0 with eventBuffer := [],
                      batchTimeout := none,
                      stats := recordDelivery [true] wOrch0.stats,
                      calls := wOrch0.calls ++ [DeliveryCall.batch [4, 9]] } ∧
    bufferRun wCfgBatch [true] [4] wOrch0
      = { wOrch0 with eventBuffer := [4],
                      batchTimeout := some (effBatchWindow wCfgBatch) } :=
  ⟨(C5_batch_flush Nat wCfgBatch [true] [4, 9] wOrch0 rfl rfl).1 (by decide),
   (C5_batch_flush Nat wCfgBatch [true] [4] wOrch0 rfl rfl).2
     (by decide) (by decide)⟩

/-- Helper: the transformation loop equals the specification's fold of
the declared-order matching entries, threading each output into the next
transform, with a `none` result stopping the pipeline. -/
theorem applyLoop_spec {α : Type} (rt : String → String → Bool)
    (table : String) :
    ∀ (ts : List (Transformation α)) (cur : α),
      applyLoop rt table ts cur
        = (ts.filter (fun t => rt t.tablePattern.source table)).foldlM
            (fun ev t => t.transform ev) cur := by
  intro ts
  induction ts with
  | nil => intro cur; rfl
  | cons t rest ih =>
      intro cur
      by_cases hm : rt t.tablePattern.source table = true
      · rcases htr : t.transform cur with _ | r
        · simp [applyLoop, hm, htr, List.filter_cons]
        · simp [applyLoop, hm, htr, List.filter_cons, ih r]
      · simp [applyLoop, hm, List.filter_cons, ih cur]

/-- C6: `applyTransformations` refines the spec pipeline — every entry
whose pattern matches the incoming event's table is applied in declared
order, each transform receiving the previous step's output; a transform
returning the drop sentinel stops the pipeline, and `processEvent` then
makes zero delivery calls and buffers nothing; an event matching no
pattern (or with no transformations configured) passes through
unmodified. -/
theorem C6_transform_pipeline :
    (∀ (α : Type) (rt : String → String → Bool) (cfg : NotifierConfig α)
       (tableOf : α → String) (e : α) (ts : List (Transformation α)),
       cfg.transformations = some ts →
       applyTransformations rt cfg tableOf e = pipelineSpec rt ts tableOf e)
    ∧ (∀ (α : Type) (rt : String → String → Bool) (cfg : NotifierConfig α)
         (tableOf : α → String) (e : α),
         cfg.transformations = none →
         applyTransformations rt cfg tableOf e = some e)
    ∧ (∀ (α : Type) (rt : String → String → Bool) (cfg : NotifierConfig α)
         (tableOf : α → String) (e : α) (ts : List (Transformation α)),
         cfg.transformations = some ts →
         (∀ t ∈ ts, rt t.tablePattern.source (tableOf e) = false) →
         applyTransformations rt cfg tableOf e = some e)
    ∧ (∀ (α : Type) (rt : String → String → Bool) (cfg : NotifierConfig α)
         (tableOf : α → String) (outcomes : List Bool) (e : α)
         (s : OrchState α),
         applyTransformations rt cfg tableOf e = none →
         processEvent rt cfg tableOf outcomes e s
           = { s with stats := updateEventStats s.stats }) := by
  have h1 : ∀ (α : Type) (rt : String → String → Bool)
      (cfg : NotifierConfig α) (tableOf : α → String) (e : α)
      (ts : List (Transformation α)),
      cfg.transformations = some ts →
      applyTransformations rt cfg tableOf e = pipelineSpec rt ts tableOf e := by
    intro α rt cfg tableOf e ts h
    simp only [applyTransformations, h]
    by_cases hl : ts.length = 0
    · have hts : ts = [] := List.length_eq_zero.mp hl
      subst hts
      simp [pipelineSpec]
    · rw [if_neg hl]
      exact applyLoop_spec rt (tableOf e) ts e
  refine ⟨h1, ?_, ?_, ?_⟩
  · intro α rt cfg tableOf e h
    unfold applyTransformations
    rw [h]
  · intro α rt cfg tableOf e ts h hnone
    rw [h1 α rt cfg tableOf e ts h]
    unfold pipelineSpec
    have hfil : ts.filter (fun t => rt t.tablePattern.source (tableOf e))
        = [] := by
      rw [List.filter_eq_nil_iff]
      intro t ht
      simp [hnone t ht]
    rw [hfil]
    rfl
  · intro α rt cfg tableOf outcomes e s h
    simp [processEvent, h]

/-- C6 witness: an `orders` event passes a `users`-pattern transformation
unmodified; a dropping transformation yields `none` and the processing
step changes nothing but the event counters — no delivery call, no
buffering. -/
theorem C6_witness :
    applyTransformations wRegexTest wCfgNoMatch wTableOf 5 = some 5 ∧
    applyTransformations wRegexTest wCfgDrop wTableOf 5 = none ∧
    processEvent wRegexTest wCfgDrop wTableOf [true] 5 wOrch0
      = { wOrch0 with stats := updateEventStats wOrch0.stats } :=
  ⟨C6_transform_pipeline.2.2.1 Nat wRegexTest wCfgNoMatch wTableOf 5 _ rfl
     (by intro t ht; simp only [List.mem_singleton] at ht; subst ht; rfl),
   rfl,
   C6_transform_pipeline.2.2.2 Nat wRegexTest wCfgDrop wTableOf [true] 5
     wOrch0 rfl⟩

/-- Helper: a fold that appends one mapped element per step. -/
theorem foldl_append_map {β γ : Type} (g : β → γ) :
    ∀ (l : List β) (acc : List γ),
      l.foldl (fun a i => a ++ [g i]) acc = acc ++ l.map g := by
  intro l
  induction l with
  | nil => intro acc; simp
  | cons x xs ih => intro acc; simp [ih]

/-- Helper: the sink-close loop attempts every sink in order, whatever
the injected close failures are. -/
theorem sinkCloseLoop_eq (closeFails : List Bool) (n : Nat) :
    sinkCloseLoop closeFails n
      = (List.range n).map CleanupAction.sinkClose := by
  unfold sinkCloseLoop
  exact foldl_append_map CleanupAction.sinkClose (List.range n) []

/-- Helper: the shared try/catch records stop alone when stop rejects,
and stop followed by teardown otherwise. -/
theorem adapterCleanupBlock_trace (f : CleanupFaults) :
    (adapterCleanupBlock f).1
      = (if f.stopFails then [CleanupAction.adapterStop]
         else [CleanupAction.adapterStop, CleanupAction.adapterTeardown]) := by
  unfold adapterCleanupBlock tryStep
  by_cases h1 : f.stopFails <;> by_cases h2 : f.teardownFails <;>
    simp [h1, h2]

/-- Helper: a batch flush always leaves the window timer cleared. -/
theorem deliverBatch_batchTimeout {α : Type} (outcomes : List Bool)
    (s : OrchState α) : (deliverBatch outcomes s).batchTimeout = none := by
  unfold deliverBatch
  by_cases h : s.eventBuffer.isEmpty <;> simp [h]

/-- C9 counterexample: when the adapter's stop() rejects during cleanup,
the adapter teardown step is skipped entirely (both sit behind one
try/catch), so "a failure in one step does not abort the remaining
steps" is false at this input — the teardown step never runs although
the adapter is present. -/
theorem C9_counterexample :
    wRunning.hasAdapter = true ∧
    CleanupAction.adapterStop ∈ (stopNotifier wFaultsStop wRunning).2.1 ∧
    CleanupAction.adapterTeardown ∉ (stopNotifier wFaultsStop wRunning).2.1 := by
  refine ⟨rfl, by decide, by decide⟩

/-- C9 (amended): stop() on a non-running notifier warns and does
nothing; on a running one it performs cleanup in the order flush pending
batch → adapter stop → adapter teardown → sink close → clear batch
timer, never rejects, and marks the notifier stopped.  Sink closes and
timer clearing run regardless of any earlier failure, and every sink is
attempted; but adapter stop and adapter teardown share one error
boundary: a rejecting stop skips teardown (a teardown or close failure
aborts nothing else). -/
theorem C9_stop_cleanup_amended :
    ∀ (α : Type) (f : CleanupFaults) (s : NotifierFullState α),
      (s.isRunning = false → stopNotifier f s = (s, [], Except.ok ())) ∧
      (s.isRunning = true →
        (stopNotifier f s).2.2 = Except.ok () ∧
        (stopNotifier f s).1.isRunning = false ∧
        (stopNotifier f s).2.1
          = (if 0 < s.orch.eventBuffer.length then [CleanupAction.flushBatch]
             else [])
            ++ (if s.hasAdapter then
                  (if f.stopFails then [CleanupAction.adapterStop]
                   else [CleanupAction.adapterStop,
                         CleanupAction.adapterTeardown])
                else [])
            ++ (List.range s.sinkCount).map CleanupAction.sinkClose
            ++ (match (if 0 < s.orch.eventBuffer.length then (none : Option Nat)
                       else s.orch.batchTimeout) with
                | some _ => [CleanupAction.clearBatchTimer]
                | none => [])) := by
  intro α f s
  constructor
  · intro h
    simp [stopNotifier, h]
  · intro h
    unfold stopNotifier
    rw [if_neg (by simp [h])]
    refine ⟨rfl, rfl, ?_⟩
    by_cases hb : 0 < s.orch.eventBuffer.length <;>
      rcases htm : s.orch.batchTimeout with _ | w <;>
        simp [cleanup, hb, htm, adapterCleanupBlock_trace, sinkCloseLoop_eq,
              deliverBatch_batchTimeout]

/-- C9 witness: with a rejecting teardown and a rejecting sink close on a
running notifier with an empty buffer, stop() still resolves and the
trace shows stop, teardown and the sink close all attempted, in order. -/
theorem C9_witness :
    wRunning.isRunning = true ∧
    (stopNotifier wFaultsTeardown wRunning).2.2 = Except.ok () ∧
    (stopNotifier wFaultsTeardown wRunning).2.1
      = [CleanupAction.adapterStop, CleanupAction.adapterTeardown,
         CleanupAction.sinkClose 0] := by
  have h := (C9_stop_cleanup_amended Nat wFaultsTeardown wRunning).2 rfl
  refine ⟨rfl, h.1, ?_⟩
  rw [h.2.2]
  decide

/-- C10: every change event the payload handler emits carries both
`data.new` and `data.old`: each equals the corresponding payload value
when that value is supplied and truthy, and `null` otherwise — never
`undefined`/omitted, including for insert and delete payloads. -/
theorem C10_data_fields_always_present :
    ∀ (env : AdapterEnv) (data : Json) (ev : ChangeEvent),
      handleNotification env (Except.ok data) = HandleResult.emitted ev →
      ev.dataNew ≠ Json.undefined ∧ ev.dataOld ≠ Json.undefined ∧
      ev.dataNew = orNull ((data.get "data").getOpt "new") ∧
      ev.dataOld = orNull ((data.get "data").getOpt "old") ∧
      (((data.get "data").getOpt "new").truthy = true →
         ev.dataNew = (data.get "data").getOpt "new") ∧
      (((data.get "data").getOpt "new").truthy = false →
         ev.dataNew = Json.null) ∧
      (((data.get "data").getOpt "old").truthy = true →
         ev.dataOld = (data.get "data").getOpt "old") ∧
      (((data.get "data").getOpt "old").truthy = false →
         ev.dataOld = Json.null) := by
  intro env data ev h
  have hb := handleNotification_emitted env data ev h
  obtain ⟨hnew, hold, -⟩ := handleNotificationBody_ok_fields env data ev hb
  refine ⟨hnew ▸ orNull_ne_undefined _, hold ▸ orNull_ne_undefined _, hnew, hold,
          ?_, ?_, ?_, ?_⟩ <;> intro ht <;> simp [hnew, hold, orNull, ht]

/-- C1: with `exclude` present and non-empty, the emitted SQL casts a
bare integer literal to `text[]` (the template interpolates
`params.length + 1` without a `$`), so the query errors out instead of
returning the schema-restricted catalog minus the excluded names; with
`exclude` absent or empty, the resolved rows are exactly the
specification's set (schema restriction plus `include` narrowing),
row-for-row. -/
theorem C1_table_resolution :
    getTableList wCatalog wFilterExclude
      = Except.error SqlError.cannotCastIntegerToTextArray ∧
    getTableList wCatalog wFilterExclude
      ≠ Except.ok (specResolvedTables wCatalog wFilterExclude) ∧
    (∀ (catalog : List CatalogRow) (filter : TableFilter),
       filter.excl.getD [] = [] →
       getTableList catalog filter
         = Except.ok (specResolvedTables catalog filter)) := by
  refine ⟨by decide, by decide, ?_⟩
  intro catalog filter h
  obtain ⟨fi, fe, fs⟩ := filter
  simp only [TableFilter.excl] at h
  have hfe : (match fe with
      | some exc => if exc.length > 0 then False else True
      | none => True) := by
    rcases fe with _ | l
    · trivial
    · simp only [Option.getD] at h
      simp [h]
  rcases fi with _ | inc
  · rcases fe with _ | l <;>
      simp_all [getTableList, getTableListQuery, runTableQuery,
        resolveClauses, resolveClause, resolveArrayArg, specResolvedTables,
        rclauseHolds]
  · by_cases hinc : inc.length > 0 <;>
      rcases fe with _ | l <;>
        simp_all [getTableList, getTableListQuery, runTableQuery,
          resolveClauses, resolveClause, resolveArrayArg, specResolvedTables,
          rclauseHolds]

/-- C1 witness: with an include list and no exclude list, the resolved
rows are the public-schema rows whose names are included. -/
theorem C1_witness :
    wFilterInclude.excl.getD [] = [] ∧
    getTableList wCatalog wFilterInclude
      = Except.ok [("public", "users"), ("public", "orders")] := by
  refine ⟨rfl, ?_⟩
  have h := C1_table_resolution.2.2 wCatalog wFilterInclude rfl
  rw [h]
  decide

/-- C2 counterexample: when the second table's trigger creation fails,
the call errors and the database is rolled back, but the adapter state is
NOT unchanged — the first table's trigger record stays in the list. -/
theorem C2_counterexample :
    (setupChangeNotifications (SetupFault.triggerCreateFails 1) wTables
       wAdapter0 wDb0).1 = Except.error () ∧
    (setupChangeNotifications (SetupFault.triggerCreateFails 1) wTables
       wAdapter0 wDb0).2.2 = wDb0 ∧
    (setupChangeNotifications (SetupFault.triggerCreateFails 1) wTables
       wAdapter0 wDb0).2.1 ≠ wAdapter0 := by
  refine ⟨by decide, by decide, by decide⟩

/-- C2 (amended): if any step of `setupChangeNotifications` fails, the
call surfaces one aggregated failure, the database transaction is fully
rolled back and the `initialized` flag is unchanged — but the in-memory
trigger-record list keeps the records pushed before the failing step
(the catch arm does not restore the array). -/
theorem C2_setup_rollback_amended :
    ∀ (fault : SetupFault) (tables : List CatalogRow) (s : AdapterState)
      (db : DbState),
      s.initialized = false →
      setupFails fault tables = true →
      (setupChangeNotifications fault tables s db).1 = Except.error () ∧
      (setupChangeNotifications fault tables s db).2.2 = db ∧
      (setupChangeNotifications fault tables s db).2.1.initialized
        = s.initialized ∧
      (setupChangeNotifications fault tables s db).2.1.triggers
        = s.triggers ++ setupPushedRecords fault tables := by
  intro fault tables s db hinit hf
  cases fault <;>
    simp_all [setupChangeNotifications, setupFails, setupPushedRecords]

/-- C2 witness: the amended statement at the concrete failing input. -/
theorem C2_witness :
    (setupChangeNotifications (SetupFault.triggerCreateFails 1) wTables
       wAdapter0 wDb0).2.2 = wDb0 ∧
    (setupChangeNotifications (SetupFault.triggerCreateFails 1) wTables
       wAdapter0 wDb0).2.1.triggers
      = wAdapter0.triggers
        ++ setupPushedRecords (SetupFault.triggerCreateFails 1) wTables :=
  ⟨(C2_setup_rollback_amended (SetupFault.triggerCreateFails 1) wTables
      wAdapter0 wDb0 rfl (by decide)).2.1,
   (C2_setup_rollback_amended (SetupFault.triggerCreateFails 1) wTables
      wAdapter0 wDb0 rfl (by decide)).2.2.2⟩

/-- C10 witness: an insert payload (new value supplied, no old value)
emits an event with `data.new` the payload value and `data.old = null`;
neither field is `undefined`. -/
theorem C10_witness :
    handleNotification wEnv (Except.ok wPayloadInsert)
      = HandleResult.emitted wEventInsert ∧
    wEventInsert.dataNew ≠ Json.undefined ∧ wEventInsert.dataOld ≠ Json.undefined :=
  ⟨rfl,
   (C10_data_fields_always_present wEnv wPayloadInsert wEventInsert rfl).1,
   (C10_data_fields_always_present wEnv wPayloadInsert wEventInsert rfl).2.1⟩

end DBWatch
